import Mathlib

/-!
# Verification of `airline_agent` (src/src/airline_agent/main.py)

Shallow embedding of the tool-invocation compatibility resolver
(`safe_invoke_tool`), the tool functions (`update_seat`,
`faq_lookup_tool`), and the per-request dispatch loop of `main`.

Python values that flow through the resolver are modelled by `PyVal`;
exceptions by `PyErr`; a callable's possibly-asynchronous result by
`Res` (a coroutine is a suspended computation whose `await` either
yields a value or raises).  Python's in-place mutation of the shared
`AirlineAgentContext` is modelled by explicit state passing.
-/

set_option maxHeartbeats 1000000

/-- A Python runtime value, restricted to the shapes the program builds
and passes around: `None`, strings, `RunContextWrapper` instances
(identified by a tag), dicts with string keys, and the `_DummyToolCtx`
holder object (whose single field `context` holds the run context, or
`None`). -/
inductive PyVal where
  | vnone : PyVal
  | vstr : String → PyVal
  | vctx : Nat → PyVal
  | vdict : List (String × PyVal) → PyVal
  | vholder : Option PyVal → PyVal

/-- A raised Python exception.  `exc` is an arbitrary exception raised by
tool code; `typeError` a call whose arguments do not bind to the callee's
signature (and `json.dumps` on a non-serializable value);
`unboundLocalError` a read of a local variable that was never assigned;
`attributeError` the terminal error raised by `safe_invoke_tool`. -/
inductive PyErr where
  | exc : String → PyErr
  | typeError : String → PyErr
  | unboundLocalError : String → PyErr
  | attributeError : String → PyErr
deriving DecidableEq, Repr

/-- The immediate result of calling a Python callable: either a plain
(synchronous) value, or a coroutine object whose `await` yields a value
or raises. -/
inductive Res where
  | sync : PyVal → Res
  | coro : Except PyErr PyVal → Res

/-- `await`ing (normalizing) a result: `asyncio.iscoroutine(res)` and
`await res`, as performed at every return point of `safe_invoke_tool`. -/
def awaitR : Res → Except PyErr PyVal
  | Res.sync v => Except.ok v
  | Res.coro r => r

/-- A Python callable: a declared positional-parameter list and a body.
The body runs only when the supplied arguments bind to the signature. -/
structure Callable where
  params : List String
  body : List PyVal → List (String × PyVal) → Except PyErr Res

/-- Python argument binding for `f(*args, **kwargs)` against a signature
with plain positional parameters and no defaults: every parameter is
bound exactly once, positionally or by keyword. -/
def bindsOk (params : List String) (args : List PyVal) (kwargs : List (String × PyVal)) : Bool :=
  decide (args.length ≤ params.length) &&
  kwargs.all (fun kv => (params.drop args.length).contains kv.1) &&
  (params.drop args.length).all (fun p => kwargs.any (fun kv => kv.1 == p)) &&
  decide (kwargs.length = params.length - args.length)

/-- Calling a Python callable: a `TypeError` if the arguments do not
bind, otherwise the body's result. -/
def callPy (c : Callable) (args : List PyVal) (kwargs : List (String × PyVal)) : Except PyErr Res :=
  if bindsOk c.params args kwargs then c.body args kwargs
  else Except.error (PyErr.typeError "unexpected arguments")

/-- Call and normalize: `res = f(*args, **kwargs)`, awaited if it is a
coroutine.  Any exception of the call or of the `await` surfaces. -/
def callAwait (c : Callable) (args : List PyVal) (kwargs : List (String × PyVal)) :
    Except PyErr PyVal :=
  (callPy c args kwargs).bind awaitR

/-- `isinstance(a, RunContextWrapper)`. -/
def isCtx : PyVal → Bool
  | PyVal.vctx _ => true
  | _ => false

/-- `json.dumps` on a single value, modelled for the value shapes the
program serializes (strings and `None`); any other shape is treated as
non-serializable and raises, as `json.dumps` does for objects such as
`RunContextWrapper`. -/
def jsonVal : PyVal → Except PyErr String
  | PyVal.vstr s => Except.ok ("\"" ++ s ++ "\"")
  | PyVal.vnone => Except.ok "null"
  | _ => Except.error (PyErr.typeError "Object is not JSON serializable")

/-- `json.dumps(payload)` for a dict payload. -/
def jsonDumps (d : List (String × PyVal)) : Except PyErr String := do
  let parts ← d.mapM (fun kv => do
    let s ← jsonVal kv.2
    pure ("\"" ++ kv.1 ++ "\": " ++ s))
  pure ("\x7b" ++ String.intercalate ", " parts ++ "\x7d")

/-- Python dict assignment `d[k] = v`: overwrite in place if the key is
present, else append (insertion order preserved, as for Python dicts). -/
def dictSet (d : List (String × PyVal)) (k : String) (v : PyVal) : List (String × PyVal) :=
  if d.any (fun kv => kv.1 == k) then
    d.map (fun kv => if kv.1 == k then (k, v) else kv)
  else d ++ [(k, v)]

/-- Payload construction from a declared schema (main.py lines 125-136):
zip the schema's property keys positionally against the non-context
arguments, then copy every kwarg whose key is among the schema keys. -/
def buildSchemaPayload (keys : List String) (fargs : List PyVal)
    (kwargs : List (String × PyVal)) : List (String × PyVal) :=
  let p := (List.zip keys fargs).foldl (fun d kv => dictSet d kv.1 kv.2) []
  kwargs.foldl (fun d kv => if keys.contains kv.1 then dictSet d kv.1 kv.2 else d) p

/-- Heuristic payload when no usable schema is present (lines 137-152):
a single string argument is replicated under `question`, `query` and
`input`; otherwise the context-filtered arguments are mapped onto the
fixed fallback name list. -/
def heuristicPayload (args : List PyVal) : List (String × PyVal) :=
  match args with
  | [PyVal.vstr s] =>
    [("question", PyVal.vstr s), ("query", PyVal.vstr s), ("input", PyVal.vstr s)]
  | _ =>
    let fargs := args.filter (fun a => !isCtx a)
    let names := ["confirmation_number", "new_seat", "seat", "query", "question", "input"]
    (List.zip names fargs).foldl (fun d kv => dictSet d kv.1 kv.2) []

/-- The payload `safe_invoke_tool` synthesizes for `on_invoke_tool`
(lines 122-152): schema-driven when `params_json_schema` is a usable
dict, heuristic otherwise. -/
def buildPayload (schema : Option (List String)) (args : List PyVal)
    (kwargs : List (String × PyVal)) : List (String × PyVal) :=
  match schema with
  | some keys => buildSchemaPayload keys (args.filter (fun a => !isCtx a)) kwargs
  | none => heuristicPayload args

/-- A tool descriptor as `safe_invoke_tool` probes it: each capability
attribute is either absent or a callable; `params_json_schema` is the
ordered key list of the schema's `properties` dict when a usable schema
is present.  The last five fields are the wrapped-callable attributes
`func`, `function`, `__wrapped__`, `_func`, `_wrapped`. -/
structure Tool where
  directCall : Option Callable
  run : Option Callable
  execute : Option Callable
  on_invoke_tool : Option Callable
  params_json_schema : Option (List String)
  func : Option Callable
  function : Option Callable
  wrapped : Option Callable
  ufunc : Option Callable
  uwrapped : Option Callable

/-- A tool object with none of the probed attributes (e.g. `object()`). -/
def Tool.empty : Tool :=
  ⟨none, none, none, none, none, none, none, none, none, none⟩

/-- The names `dir(tool_obj)` would reveal for the modelled attributes,
as interpolated into the terminal `AttributeError` message. -/
def availableAttrs (t : Tool) : List String :=
  (if t.directCall.isSome then ["__call__"] else []) ++
  (if t.run.isSome then ["run"] else []) ++
  (if t.execute.isSome then ["execute"] else []) ++
  (if t.on_invoke_tool.isSome then ["on_invoke_tool"] else []) ++
  (if t.params_json_schema.isSome then ["params_json_schema"] else []) ++
  (if t.func.isSome then ["func"] else []) ++
  (if t.function.isSome then ["function"] else []) ++
  (if t.wrapped.isSome then ["__wrapped__"] else []) ++
  (if t.ufunc.isSome then ["_func"] else []) ++
  (if t.uwrapped.isSome then ["_wrapped"] else [])

/-- One `on_invoke_tool` sub-attempt, classified as in the attempt loop
(lines 206-218): a raised exception is swallowed, a plain `None` result
is skipped, a plain value is returned, a coroutine is awaited and its
value returned (its exception is swallowed). -/
def attemptHit : Except PyErr Res → Option PyVal
  | Except.ok (Res.sync PyVal.vnone) => none
  | Except.ok (Res.sync v) => some v
  | Except.ok (Res.coro (Except.ok v)) => some v
  | Except.ok (Res.coro (Except.error _)) => none
  | Except.error _ => none

/-- The attempt loop (lines 206-218): the first attempt that neither
raises nor produces `None` wins; every other attempt is silently
discarded; no attempt is retried. -/
def firstHit : List (Except PyErr Res) → Option PyVal
  | [] => none
  | r :: rest =>
    match attemptHit r with
    | some v => some v
    | none => firstHit rest

/-- The ordered `on_invoke_tool` sub-attempts (lines 165-195):
(i) dummy context holder + JSON-serialized payload, (ii) holder + raw
payload dict, (iii) a lone non-context string argument by itself,
(iv) the original arguments unfiltered, (v) the context-filtered
arguments, then — only when a run context was supplied — (vi) filtered
arguments with the context appended, (vii) prepended, (viii) the context
alone, and finally (ix) the payload expanded as keyword arguments. -/
def attemptResults (oi : Callable) (args fargs : List PyVal)
    (payload : List (String × PyVal)) (runCtx : Option PyVal) :
    List (Except PyErr Res) :=
  [(jsonDumps payload).bind (fun s => callPy oi [PyVal.vholder runCtx, PyVal.vstr s] []),
   callPy oi [PyVal.vholder runCtx, PyVal.vdict payload] []]
  ++ (match fargs with
      | [PyVal.vstr s] => [callPy oi [PyVal.vstr s] []]
      | _ => [])
  ++ [callPy oi args [], callPy oi fargs []]
  ++ (match runCtx with
      | some c => [callPy oi (fargs ++ [c]) [], callPy oi (c :: fargs) [], callPy oi [c] []]
      | none => [])
  ++ [callPy oi [] payload]

/-- Strategy 5 (lines 223-237): probe the wrapped-callable attributes in
their fixed order and call the first one present with the original
arguments; if none is present, raise the terminal `AttributeError`
listing the available attributes. -/
def unwrapStage (t : Tool) (args : List PyVal) (kwargs : List (String × PyVal)) :
    Except PyErr PyVal :=
  match t.func with
  | some u => callAwait u args kwargs
  | none =>
    match t.function with
    | some u => callAwait u args kwargs
    | none =>
      match t.wrapped with
      | some u => callAwait u args kwargs
      | none =>
        match t.ufunc with
        | some u => callAwait u args kwargs
        | none =>
          match t.uwrapped with
          | some u => callAwait u args kwargs
          | none =>
            Except.error (PyErr.attributeError
              ("Tool object is not directly callable and no recognized invocation method found. Available attributes: "
                ++ String.intercalate ", " (availableAttrs t)))

/-- Strategy 4 (lines 117-221): build the payload, locate the run
context among the arguments, evaluate the sub-attempts in order; on
exhaustion fall through (past the dedented line 221, which is harmless
here because `last_exc` was assigned) to the unwrap stage. -/
def structuredStage (t : Tool) (oi : Callable) (args : List PyVal)
    (kwargs : List (String × PyVal)) : Except PyErr PyVal :=
  match firstHit (attemptResults oi args (args.filter (fun a => !isCtx a))
      (buildPayload t.params_json_schema args kwargs) (args.find? isCtx)) with
  | some v => Except.ok v
  | none => unwrapStage t args kwargs

/-- Strategies 2-5 of `safe_invoke_tool`, reached when the descriptor is
not callable or its direct call raised.  `run` and `execute` results
(and their exceptions) propagate unfenced (lines 103-115).  When
`on_invoke_tool` is absent, control reaches the dedented statement
`on_invoke_last_exc = last_exc` at line 221 with the local `last_exc`
never assigned, so Python raises `UnboundLocalError` there — the unwrap
stage and the terminal `AttributeError` are unreachable in that case. -/
def strategiesAfterDirect (t : Tool) (args : List PyVal)
    (kwargs : List (String × PyVal)) : Except PyErr PyVal :=
  match t.run with
  | some r => callAwait r args kwargs
  | none =>
    match t.execute with
    | some ex => callAwait ex args kwargs
    | none =>
      match t.on_invoke_tool with
      | some oi => structuredStage t oi args kwargs
      | none => Except.error (PyErr.unboundLocalError "last_exc")

/-- `safe_invoke_tool(tool_obj, *args, **kwargs)` (lines 81-237).
Strategy 1: if the descriptor is callable, call it with the full
argument list; the whole attempt (call, binding, await) is fenced — on
any exception evaluation proceeds to the later strategies. -/
def safe_invoke_tool (t : Tool) (args : List PyVal) (kwargs : List (String × PyVal)) :
    Except PyErr PyVal :=
  match t.directCall with
  | some c =>
    match callAwait c args kwargs with
    | Except.ok v => Except.ok v
    | Except.error _ => strategiesAfterDirect t args kwargs
  | none => strategiesAfterDirect t args kwargs

/-- Substring search over character lists: Python's `needle in hay`. -/
def containsAux (needle : List Char) : List Char → Bool
  | [] => needle.isEmpty
  | c :: rest => List.isPrefixOf needle (c :: rest) || containsAux needle rest

/-- Python's substring test `needle in hay` on strings. -/
def strContains (hay needle : String) : Bool :=
  containsAux needle.data hay.data

/-- Python's `str.lower()`, character-wise (the program's strings are
ASCII, where this agrees with Unicode lowercasing). -/
def pyLower (s : String) : String :=
  ⟨s.data.map Char.toLower⟩

/-- The shared conversation state `AirlineAgentContext` (lines 35-41):
four optional string fields, all `None` at construction. -/
structure AirlineAgentContext where
  passenger_name : Option String
  confirmation_number : Option String
  seat_number : Option String
  flight_number : Option String
deriving DecidableEq, Repr

/-- A freshly constructed context: every field `None`. -/
def emptyCtx : AirlineAgentContext := ⟨none, none, none, none⟩

/-- `faq_lookup_tool` (lines 48-63): pure keyword lookup over the
lowercased question; it neither receives nor touches the context. -/
def faq_lookup_tool (question : String) : String :=
  let q := pyLower question
  if ["baggage", "luggage", "carry-on", "bag", "weight"].any (fun k => strContains q k) then
    "You are allowed to bring one bag on the plane. It must be under 50 pounds and 22 inches x 14 inches x 9 inches."
  else if ["seat", "seats", "seating", "economy", "business", "exit row"].any (fun k => strContains q k) then
    "There are 120 seats on the plane. There are 22 business class seats and 98 economy seats. Exit rows are rows 4 and 16. Rows 5-8 are Economy Plus, with extra legroom."
  else if ["wifi", "internet", "connectivity", "network"].any (fun k => strContains q k) then
    "We have free wifi on the plane, join Airline-Wifi"
  else
    "I'm sorry, I don't know the answer to that question"

/-- `update_seat` (lines 66-74), with the in-place mutation of
`context.context` made explicit.  `r` is the value drawn by
`random.randint(100, 999)`, used only when `flight_number` is `None`. -/
def update_seat (r : Nat) (ctx : AirlineAgentContext)
    (confirmation_number new_seat : String) : AirlineAgentContext × String :=
  let ctx1 :=
    if ctx.flight_number = none then
      { ctx with flight_number := some ("FLT-" ++ toString r) }
    else ctx
  let ctx2 := { ctx1 with confirmation_number := some confirmation_number,
                          seat_number := some new_seat }
  (ctx2,
   "Updated seat to " ++ new_seat ++ " for confirmation number " ++ confirmation_number
     ++ " on flight " ++ ctx2.flight_number.getD "")

/-- The intent classification of `main` (line 301): keyword test against
the seat-change vocabulary on the lowercased query. -/
def isSeatQuery (q : String) : Bool :=
  ["seat", "change my seat", "seat change"].any (fun k => strContains (pyLower q) k)

/-- The body of `main`'s per-query dispatch (lines 300-308): a seat
query runs `update_seat` on the shared context with the hard-coded
confirmation `"ABC123"` and seat `"12A"`; any other query runs
`faq_lookup_tool`, which takes no context.  The `FunctionTool` wrapper
resolution performed by `safe_invoke_tool` on the decorated tools is
supplied by the external `agents` package and is modelled as delivering
the call to the tool function.  `r` is the random draw available to
`update_seat`. -/
def handleQuery (r : Nat) (ctx : AirlineAgentContext) (q : String) :
    AirlineAgentContext × String :=
  if isSeatQuery q then update_seat r ctx "ABC123" "12A"
  else (ctx, faq_lookup_tool q)

/-- The request loop of `main` (lines 297-313): each request's handler
runs against the shared mutable context inside a per-request
`try/except`; a raised error is logged (`none` in the output list) and
the loop continues with the context exactly as the failing handler left
it.  A handler is the per-query body: classification plus tool
invocation. -/
def dispatchLoop
    (handlers : List (AirlineAgentContext → AirlineAgentContext × Except PyErr String))
    (ctx : AirlineAgentContext) : AirlineAgentContext × List (Option String) :=
  match handlers with
  | [] => (ctx, [])
  | h :: rest =>
    let step := h ctx
    let next := dispatchLoop rest step.1
    match step.2 with
    | Except.ok s => (next.1, some s :: next.2)
    | Except.error _ => (next.1, none :: next.2)

/-! ## Claims -/

/-- **C1** (code bug, exhibited).  The claim says a tool exposing none of
the five capability axes makes `invoke` fail with the attribute-listing
`UnsupportedToolShape` error (`AttributeError`, lines 234-237).  In the
code, however, once the direct, `run`, `execute` and `on_invoke_tool`
probes all find nothing, control reaches the dedented statement
`on_invoke_last_exc = last_exc` (line 221) with the local `last_exc`
never assigned, so the call raises `UnboundLocalError` instead, and the
unwrap stage and the terminal `AttributeError` are never reached. -/
theorem c1_no_axes_raises_unbound_local (t : Tool) (args : List PyVal)
    (kwargs : List (String × PyVal))
    (h1 : t.directCall = none) (h2 : t.run = none) (h3 : t.execute = none)
    (h4 : t.on_invoke_tool = none) (_h5 : t.func = none) (_h6 : t.function = none)
    (_h7 : t.wrapped = none) (_h8 : t.ufunc = none) (_h9 : t.uwrapped = none) :
    safe_invoke_tool t args kwargs = Except.error (PyErr.unboundLocalError "last_exc") := by
  simp only [safe_invoke_tool, strategiesAfterDirect, h1, h2, h3, h4]

/-- Witness for C1 at a concrete no-axes descriptor. -/
theorem c1_witness :
    safe_invoke_tool Tool.empty [] [] = Except.error (PyErr.unboundLocalError "last_exc") :=
  c1_no_axes_raises_unbound_local Tool.empty [] [] rfl rfl rfl rfl rfl rfl rfl rfl rfl

/-- **C2** (confirmed).  For a tool exposing a `run` operation that is
actually reached (the descriptor is not callable, or its direct call
raised — otherwise `run` is never invoked), an exception raised by `run`
propagates to the caller: no fallback to `execute`, the structured
payload stage, or the unwrap stage occurs, whatever those attributes
hold — in contrast to the fenced direct-call attempt. -/
theorem c2_run_error_propagates (t : Tool) (rc : Callable) (args : List PyVal)
    (kwargs : List (String × PyVal)) (e : PyErr)
    (hrun : t.run = some rc)
    (hdirect : ∀ c, t.directCall = some c →
      ∃ e2, callAwait c args kwargs = Except.error e2)
    (herr : callAwait rc args kwargs = Except.error e) :
    safe_invoke_tool t args kwargs = Except.error e := by
  have hafter : strategiesAfterDirect t args kwargs = Except.error e := by
    simp only [strategiesAfterDirect, hrun, herr]
  cases hc : t.directCall with
  | none => simp only [safe_invoke_tool, hc, hafter]
  | some c =>
    obtain ⟨e2, he2⟩ := hdirect c hc
    simp only [safe_invoke_tool, hc, he2, hafter]

/-- A `run` method that raises, used by the C2 witness.  Its enclosing
tool also wraps a succeeding `func`, demonstrating that no fallback to
the unwrap stage happens. -/
def runBoom : Callable :=
  ⟨[], fun _ _ => Except.error (PyErr.exc "boom")⟩

/-- A wrapped callable that would succeed, for the C2 witness tool. -/
def funcFine : Callable :=
  ⟨[], fun _ _ => Except.ok (Res.sync (PyVal.vstr "fine"))⟩

/-- The C2 witness tool: not callable, `run` raises, `func` present. -/
def c2tool : Tool :=
  { Tool.empty with run := some runBoom, func := some funcFine }

/-- Witness for C2: the raised `run` error surfaces unchanged even
though a succeeding wrapped `func` exists. -/
theorem c2_witness :
    safe_invoke_tool c2tool [] [] = Except.error (PyErr.exc "boom") :=
  c2_run_error_propagates c2tool runBoom [] [] (PyErr.exc "boom") rfl
    (fun _c hc => Option.noConfusion hc) rfl

/-- **C3** (code bug, exhibited).  The claim: whenever the direct, `run`,
`execute` and structured-payload strategies all fail to produce a result
and the descriptor wraps an inner callable under `func` (or `function`,
`__wrapped__`, `_func`, `_wrapped`), that callable is invoked with the
original arguments and its result normalized.  First conjunct: the code
violates this for a descriptor whose only capability is a wrapped
`func` — the structured-payload strategy produces no result because
`on_invoke_tool` is absent, and the dedented line 221 then raises
`UnboundLocalError` before the unwrap loop can run, whatever the wrapped
callable would have returned.  Second conjunct: the intended behaviour
does hold on the one path that keeps `last_exc` assigned — when
`on_invoke_tool` exists and every sub-attempt fails, the wrapped `func`
is called with the original `args`/`kwargs` and its awaited result is
returned. -/
theorem c3_unwrap_fallback :
    (∀ (t : Tool) (u : Callable) (args : List PyVal) (kwargs : List (String × PyVal)),
      t.directCall = none → t.run = none → t.execute = none → t.on_invoke_tool = none →
      t.func = some u →
      safe_invoke_tool t args kwargs = Except.error (PyErr.unboundLocalError "last_exc")) ∧
    (∀ (t : Tool) (oi u : Callable) (args : List PyVal) (kwargs : List (String × PyVal)),
      t.directCall = none → t.run = none → t.execute = none → t.on_invoke_tool = some oi →
      t.func = some u →
      firstHit (attemptResults oi args (args.filter (fun a => !isCtx a))
        (buildPayload t.params_json_schema args kwargs) (args.find? isCtx)) = none →
      safe_invoke_tool t args kwargs = callAwait u args kwargs) := by
  constructor
  · intro t u args kwargs h1 h2 h3 h4 _h5
    simp only [safe_invoke_tool, strategiesAfterDirect, h1, h2, h3, h4]
  · intro t oi u args kwargs h1 h2 h3 h4 h5 h6
    simp only [safe_invoke_tool, strategiesAfterDirect, structuredStage, unwrapStage,
      h1, h2, h3, h4, h5, h6]

/-- A wrapped inner callable that records its arguments by returning the
non-context part as a dict value, used by the C3 witness. -/
def funcEchoFirst : Callable :=
  ⟨["x"], fun as _ =>
    match as with
    | [v] => Except.ok (Res.sync v)
    | _ => Except.error (PyErr.exc "unexpected")⟩

/-- The C3 failing-input tool: only a wrapped `func`, nothing else. -/
def c3toolBare : Tool :=
  { Tool.empty with func := some funcEchoFirst }

/-- An `on_invoke_tool` that rejects every call shape, so that all
structured-payload sub-attempts raise, used by the C3 witness. -/
def oiAlwaysBoom : Callable :=
  ⟨["a"], fun _ _ => Except.error (PyErr.exc "no shape fits")⟩

/-- The C3 second-conjunct witness tool: `on_invoke_tool` present but
always failing, wrapped `func` present. -/
def c3toolWrapped : Tool :=
  { Tool.empty with on_invoke_tool := some oiAlwaysBoom, func := some funcEchoFirst }

/-- Witness for C3: on the bare-`func` tool the code raises
`UnboundLocalError`; on the tool whose structured stage is exhausted the
wrapped `func` receives the original argument and its value returns. -/
theorem c3_witness :
    safe_invoke_tool c3toolBare [PyVal.vstr "hi"] []
      = Except.error (PyErr.unboundLocalError "last_exc") ∧
    safe_invoke_tool c3toolWrapped [PyVal.vstr "hi"] []
      = Except.ok (PyVal.vstr "hi") :=
  ⟨c3_unwrap_fallback.1 c3toolBare funcEchoFirst [PyVal.vstr "hi"] [] rfl rfl rfl rfl rfl,
   (c3_unwrap_fallback.2 c3toolWrapped oiAlwaysBoom funcEchoFirst [PyVal.vstr "hi"] []
      rfl rfl rfl rfl rfl rfl).trans rfl⟩

/-- **C4** (confirmed).  The direct-call strategy passes the full
candidate argument list to the callable descriptor.  First conjunct:
when the full list (with the context) binds and the call produces a
value, that value is returned — the callable was called with everything
the caller gave.  Second conjunct: when the callable's declared
signature does not accept the supplied list (e.g. it has no positional
slot for the context), the body never runs — the call raises a binding
`TypeError` — and the failure is swallowed: evaluation proceeds to the
later strategies.  Third conjunct: any failure of the fenced direct
attempt (binding, body, or `await`) is swallowed the same way. -/
theorem c4_direct_call_fenced (t : Tool) (c : Callable) (args : List PyVal)
    (kwargs : List (String × PyVal))
    (hc : t.directCall = some c) :
    (∀ v, callAwait c args kwargs = Except.ok v →
      safe_invoke_tool t args kwargs = Except.ok v) ∧
    (bindsOk c.params args kwargs = false →
      callPy c args kwargs = Except.error (PyErr.typeError "unexpected arguments") ∧
      safe_invoke_tool t args kwargs = strategiesAfterDirect t args kwargs) ∧
    (∀ e, callAwait c args kwargs = Except.error e →
      safe_invoke_tool t args kwargs = strategiesAfterDirect t args kwargs) := by
  refine ⟨fun v hv => ?_, fun hb => ?_, fun e he => ?_⟩
  · simp only [safe_invoke_tool, hc, hv]
  · have hcall : callPy c args kwargs = Except.error (PyErr.typeError "unexpected arguments") := by
      simp only [callPy, hb, Bool.false_eq_true, if_false]
    refine ⟨hcall, ?_⟩
    have : callAwait c args kwargs
        = Except.error (PyErr.typeError "unexpected arguments") := by
      simp only [callAwait, hcall, Except.bind]
    simp only [safe_invoke_tool, hc, this]
  · simp only [safe_invoke_tool, hc, he]

/-- A direct callable declaring two parameters, so a call carrying an
extra context argument does not bind, for the C4 witness. -/
def directTwoParams : Callable :=
  ⟨["confirmation_number", "new_seat"],
   fun _ _ => Except.ok (Res.sync (PyVal.vstr "direct ran"))⟩

/-- A `run` method that succeeds, for the C4 witness fallback. -/
def runAfterDirect : Callable :=
  ⟨["ctx", "confirmation_number", "new_seat"],
   fun _ _ => Except.ok (Res.coro (Except.ok (PyVal.vstr "run ran")))⟩

/-- The C4 witness tool: callable whose signature rejects the
context-bearing argument list, with a `run` fallback. -/
def c4tool : Tool :=
  { Tool.empty with directCall := some directTwoParams, run := some runAfterDirect }

/-- Witness for C4: with a context plus two strings, the direct
signature does not bind, the attempt is swallowed, and the `run`
strategy answers. -/
theorem c4_witness :
    safe_invoke_tool c4tool [PyVal.vctx 0, PyVal.vstr "ABC123", PyVal.vstr "12A"] []
      = strategiesAfterDirect c4tool [PyVal.vctx 0, PyVal.vstr "ABC123", PyVal.vstr "12A"] []
      ∧ strategiesAfterDirect c4tool [PyVal.vctx 0, PyVal.vstr "ABC123", PyVal.vstr "12A"] []
          = Except.ok (PyVal.vstr "run ran") :=
  ⟨((c4_direct_call_fenced c4tool directTwoParams
      [PyVal.vctx 0, PyVal.vstr "ABC123", PyVal.vstr "12A"] [] rfl).2.1 rfl).2,
   rfl⟩

/-- **C5** (confirmed).  A tool exposing only direct callability (no
`run`, `execute`, `on_invoke_tool`, or wrapped attribute) returns
exactly the value the callable produces — a synchronous value as-is, a
coroutine awaited first — and, the strategy list being otherwise empty,
no other strategy is attempted. -/
theorem c5_direct_only_returns_value (t : Tool) (c : Callable) (args : List PyVal)
    (kwargs : List (String × PyVal)) (v : PyVal)
    (hc : t.directCall = some c)
    (_hrun : t.run = none) (_hexec : t.execute = none) (_hoi : t.on_invoke_tool = none)
    (_hf1 : t.func = none) (_hf2 : t.function = none) (_hf3 : t.wrapped = none)
    (_hf4 : t.ufunc = none) (_hf5 : t.uwrapped = none)
    (hok : callAwait c args kwargs = Except.ok v) :
    safe_invoke_tool t args kwargs = Except.ok v := by
  simp only [safe_invoke_tool, hc, hok]

/-- A directly callable tool returning a coroutine, for the C5 witness. -/
def directCoro : Callable :=
  ⟨["question"], fun _ _ => Except.ok (Res.coro (Except.ok (PyVal.vstr "the answer")))⟩

/-- The C5 witness tool: only directly callable. -/
def c5tool : Tool :=
  { Tool.empty with directCall := some directCoro }

/-- Witness for C5: the coroutine produced by the direct call is awaited
and its value returned unchanged. -/
theorem c5_witness :
    safe_invoke_tool c5tool [PyVal.vstr "baggage?"] [] = Except.ok (PyVal.vstr "the answer") :=
  c5_direct_only_returns_value c5tool directCoro [PyVal.vstr "baggage?"] []
    (PyVal.vstr "the answer") rfl rfl rfl rfl rfl rfl rfl rfl rfl rfl

/-- An `on_invoke_tool` that answers only the raw-dict call shape
(`on_invoke(_DummyToolCtx(...), payload)`), echoing the payload back;
every other shape raises.  Lets a theorem observe exactly the payload
the resolver synthesized. -/
def oiEcho : Callable :=
  ⟨["ctx", "input"], fun as _ =>
    match as with
    | [_, PyVal.vdict d] => Except.ok (Res.sync (PyVal.vdict d))
    | _ => Except.error (PyErr.exc "unexpected call shape")⟩

/-- A schema-bearing structured-payload tool built around `oiEcho`. -/
def schemaEchoTool (keys : List String) : Tool :=
  { Tool.empty with on_invoke_tool := some oiEcho, params_json_schema := some keys }

/-- The first (JSON-string) sub-attempt misses on `oiEcho` whatever the
payload serializes to, and the second (raw-dict) sub-attempt hits,
echoing the payload. -/
theorem firstHit_oiEcho (p : List (String × PyVal)) (runCtx : Option PyVal)
    (rest : List (Except PyErr Res)) :
    firstHit ((jsonDumps p).bind
        (fun s => callPy oiEcho [PyVal.vholder runCtx, PyVal.vstr s] []) ::
      callPy oiEcho [PyVal.vholder runCtx, PyVal.vdict p] [] :: rest)
      = some (PyVal.vdict p) := by
  cases h : jsonDumps p with
  | error e => simp [firstHit, attemptHit, h, Except.bind, callPy, oiEcho, bindsOk]
  | ok s => simp [firstHit, attemptHit, h, Except.bind, callPy, oiEcho, bindsOk]

/-- **C6** (confirmed).  For a structured-payload tool declaring schema
parameters `[a, b]` and invoked with non-context arguments `(x, y)`, the
synthesized payload is `{a: x, b: y}` — the schema keys zipped
positionally against the non-context arguments — a caller-supplied
keyword argument whose key matches a schema parameter is copied in
(overriding the positional value for that key), and one that matches no
schema parameter is ignored.  The last conjunct observes the payload
through the resolver itself: an `on_invoke_tool` that answers only the
raw-dict sub-attempt receives exactly `{a: x, b: y}`. -/
theorem c6_schema_payload_zip (a b : String) (x y : PyVal)
    (hab : (a == b) = false) (hx : isCtx x = false) (hy : isCtx y = false) :
    buildPayload (some [a, b]) [x, y] [] = [(a, x), (b, y)] ∧
    (∀ v, buildPayload (some [a, b]) [x, y] [(b, v)] = [(a, x), (b, v)]) ∧
    (∀ k v, (k == a) = false → (k == b) = false →
      buildPayload (some [a, b]) [x, y] [(k, v)] = [(a, x), (b, y)]) ∧
    safe_invoke_tool (schemaEchoTool [a, b]) [x, y] []
      = Except.ok (PyVal.vdict [(a, x), (b, y)]) := by
  have hfilter : [x, y].filter (fun v => !isCtx v) = [x, y] := by
    simp [List.filter, hx, hy]
  have hpay : buildPayload (some [a, b]) [x, y] [] = [(a, x), (b, y)] := by
    simp [buildPayload, buildSchemaPayload, hfilter, dictSet, hab]
  have hab' : ¬ a = b := by intro h; subst h; simp at hab
  refine ⟨hpay, fun v => ?_, fun k v hka hkb => ?_, ?_⟩
  · simp [buildPayload, buildSchemaPayload, hfilter, dictSet, hab, List.contains]
    exact fun h => absurd h hab'
  · have hka' : ¬ k = a := by intro h; subst h; simp at hka
    have hkb' : ¬ k = b := by intro h; subst h; simp at hkb
    simp [buildPayload, buildSchemaPayload, hfilter, dictSet, hab, hka, hkb,
      List.contains, hka', hkb', Ne.symm hka', Ne.symm hkb']
  · have hfind : [x, y].find? isCtx = none := by
      simp [List.find?, hx, hy]
    simp only [safe_invoke_tool, schemaEchoTool, Tool.empty, strategiesAfterDirect,
      structuredStage, attemptResults, hfilter, hfind, hpay, List.append_eq,
      List.cons_append, List.nil_append]
    rw [firstHit_oiEcho]

/-- Witness for C6, at the seat-tool schema `[confirmation_number,
new_seat]` and arguments `("ABC123", "12A")`. -/
theorem c6_witness :
    buildPayload (some ["confirmation_number", "new_seat"])
        [PyVal.vstr "ABC123", PyVal.vstr "12A"] []
      = [("confirmation_number", PyVal.vstr "ABC123"), ("new_seat", PyVal.vstr "12A")] ∧
    safe_invoke_tool (schemaEchoTool ["confirmation_number", "new_seat"])
        [PyVal.vstr "ABC123", PyVal.vstr "12A"] []
      = Except.ok (PyVal.vdict
          [("confirmation_number", PyVal.vstr "ABC123"), ("new_seat", PyVal.vstr "12A")]) :=
  ⟨(c6_schema_payload_zip "confirmation_number" "new_seat"
      (PyVal.vstr "ABC123") (PyVal.vstr "12A") (by decide) rfl rfl).1,
   (c6_schema_payload_zip "confirmation_number" "new_seat"
      (PyVal.vstr "ABC123") (PyVal.vstr "12A") (by decide) rfl rfl).2.2.2⟩

/-- **C7** (confirmed).  Strategy evaluation follows the fixed priority
order.  First conjunct: for a tool exposing both direct callability
(which throws) and a `run` operation (which succeeds), `invoke` returns
the `run` result — the fenced direct failure falls through to `run` and
nothing later runs.  Second conjunct: within the structured-payload
sub-attempts, the first attempt that neither raises nor produces `None`
wins, whatever attempts follow it, and no earlier failed attempt is
revisited. -/
theorem c7_fixed_priority_order :
    (∀ (t : Tool) (c rc : Callable) (args : List PyVal)
        (kwargs : List (String × PyVal)) (e : PyErr) (v : PyVal),
      t.directCall = some c → t.run = some rc →
      callAwait c args kwargs = Except.error e →
      callAwait rc args kwargs = Except.ok v →
      safe_invoke_tool t args kwargs = Except.ok v) ∧
    (∀ (misses rest : List (Except PyErr Res)) (hit : Except PyErr Res) (v : PyVal),
      (∀ x ∈ misses, attemptHit x = none) → attemptHit hit = some v →
      firstHit (misses ++ hit :: rest) = some v) := by
  constructor
  · intro t c rc args kwargs e v hc hrc he hv
    simp only [safe_invoke_tool, strategiesAfterDirect, hc, hrc, he, hv]
  · intro misses rest hit v hmiss hhit
    induction misses with
    | nil => simp [firstHit, hhit]
    | cons m ms ih =>
      have hm : attemptHit m = none := hmiss m (List.mem_cons_self m ms)
      simp only [List.cons_append, firstHit, hm]
      exact ih (fun x hx => hmiss x (List.mem_cons_of_mem m hx))

/-- The C7 witness tool: direct call raises, `run` succeeds. -/
def c7tool : Tool :=
  { Tool.empty with
      directCall := some ⟨[], fun _ _ => Except.error (PyErr.exc "direct boom")⟩,
      run := some ⟨[], fun _ _ => Except.ok (Res.sync (PyVal.vstr "run result"))⟩ }

/-- Witness for C7: the `run` result is returned past the throwing
direct call, and a concrete miss list is skipped up to the first hit. -/
theorem c7_witness :
    safe_invoke_tool c7tool [] [] = Except.ok (PyVal.vstr "run result") ∧
    firstHit [Except.error (PyErr.exc "a"), Except.ok (Res.sync PyVal.vnone),
        Except.ok (Res.sync (PyVal.vstr "w")), Except.error (PyErr.exc "b")]
      = some (PyVal.vstr "w") :=
  ⟨c7_fixed_priority_order.1 c7tool
      ⟨[], fun _ _ => Except.error (PyErr.exc "direct boom")⟩
      ⟨[], fun _ _ => Except.ok (Res.sync (PyVal.vstr "run result"))⟩
      [] [] (PyErr.exc "direct boom") (PyVal.vstr "run result") rfl rfl rfl rfl,
   c7_fixed_priority_order.2
      [Except.error (PyErr.exc "a"), Except.ok (Res.sync PyVal.vnone)]
      [Except.error (PyErr.exc "b")] (Except.ok (Res.sync (PyVal.vstr "w")))
      (PyVal.vstr "w")
      (by intro x hx; fin_cases hx <;> rfl)
      rfl⟩

/-- Appending the empty string is the identity. -/
theorem str_append_empty (s : String) : s ++ "" = s := by
  cases s with
  | mk data => show String.mk (data ++ []) = String.mk data
               rw [List.append_nil]

/-- **C8** (confirmed).  Invoking the seat-update tool on the fresh
all-`None` context with confirmation `"ABC123"` and seat `"12A"` sets
`confirmation_number` and `seat_number` to those values, generates a
non-`None` flight number, and returns a message containing all three
values (containment stated as an explicit decomposition of the message).
A subsequent FAQ request in the same session leaves the whole context —
in particular the flight number just set — unchanged, since the FAQ
flow never touches the context.  `r` is the `randint` draw of the first
request, `r2` that available to the second. -/
theorem c8_seat_update_scenario (r r2 : Nat) :
    ((update_seat r emptyCtx "ABC123" "12A").1.confirmation_number = some "ABC123") ∧
    ((update_seat r emptyCtx "ABC123" "12A").1.seat_number = some "12A") ∧
    ((update_seat r emptyCtx "ABC123" "12A").1.flight_number ≠ none) ∧
    (∃ p q, (update_seat r emptyCtx "ABC123" "12A").2 = p ++ "ABC123" ++ q) ∧
    (∃ p q, (update_seat r emptyCtx "ABC123" "12A").2 = p ++ "12A" ++ q) ∧
    (∃ f p q, (update_seat r emptyCtx "ABC123" "12A").1.flight_number = some f ∧
      (update_seat r emptyCtx "ABC123" "12A").2 = p ++ f ++ q) ∧
    ((handleQuery r2 (update_seat r emptyCtx "ABC123" "12A").1
        "What's the baggage policy?").1
      = (update_seat r emptyCtx "ABC123" "12A").1) := by
  refine ⟨rfl, rfl, ?_, ?_, ?_, ?_, ?_⟩
  · intro h
    exact Option.noConfusion h
  · exact ⟨"Updated seat to 12A for confirmation number ",
      " on flight FLT-" ++ toString r, rfl⟩
  · exact ⟨"Updated seat to ",
      " for confirmation number ABC123 on flight FLT-" ++ toString r, rfl⟩
  · refine ⟨"FLT-" ++ toString r,
      "Updated seat to 12A for confirmation number ABC123 on flight ", "", rfl, ?_⟩
    rw [str_append_empty]
    rfl
  · have hseat : isSeatQuery "What's the baggage policy?" = false := by decide
    simp [handleQuery, hseat]

/-- Witness for C8 at the concrete random draws 123 and 7. -/
theorem c8_witness :
    (update_seat 123 emptyCtx "ABC123" "12A").1.confirmation_number = some "ABC123" ∧
    (update_seat 123 emptyCtx "ABC123" "12A").1.flight_number ≠ none :=
  ⟨(c8_seat_update_scenario 123 7).1, (c8_seat_update_scenario 123 7).2.2.1⟩

/-- **C9** (confirmed).  The dispatch loop isolates every request: in a
three-request session whose second handler raises — leaving the shared
context as it found it, as an `UnsupportedToolShape` failure inside
`safe_invoke_tool` does, since no tool body ran — the first and third
requests still produce their normal results, the loop is not aborted,
and the final context is exactly the composition of the effects of the
two successful requests. -/
theorem c9_dispatch_isolation
    (h1 h2 h3 : AirlineAgentContext → AirlineAgentContext × Except PyErr String)
    (ctx c1 c3 : AirlineAgentContext) (s1 s3 : String) (e : PyErr)
    (H1 : h1 ctx = (c1, Except.ok s1))
    (H2 : h2 c1 = (c1, Except.error e))
    (H3 : h3 c1 = (c3, Except.ok s3)) :
    dispatchLoop [h1, h2, h3] ctx = (c3, [some s1, none, some s3]) := by
  simp [dispatchLoop, H1, H2, H3]

/-- The first C9 witness handler: a seat request that books seat `"1A"`
and reports success. -/
def w9h1 : AirlineAgentContext → AirlineAgentContext × Except PyErr String :=
  fun c => ({ c with seat_number := some "1A" }, Except.ok "booked 1A")

/-- The second C9 witness handler: fails with `UnsupportedToolShape`
without touching the context. -/
def w9h2 : AirlineAgentContext → AirlineAgentContext × Except PyErr String :=
  fun c => (c, Except.error (PyErr.attributeError "unsupported tool shape"))

/-- The third C9 witness handler: records the passenger name. -/
def w9h3 : AirlineAgentContext → AirlineAgentContext × Except PyErr String :=
  fun c => ({ c with passenger_name := some "Alex" }, Except.ok "noted")

/-- Witness for C9: the failing middle request is logged as an error
while requests 1 and 3 land their effects and outputs. -/
theorem c9_witness :
    dispatchLoop [w9h1, w9h2, w9h3] emptyCtx
      = (⟨some "Alex", none, some "1A", none⟩, [some "booked 1A", none, some "noted"]) :=
  c9_dispatch_isolation w9h1 w9h2 w9h3 emptyCtx
    ⟨none, none, some "1A", none⟩ ⟨some "Alex", none, some "1A", none⟩
    "booked 1A" "noted" (PyErr.attributeError "unsupported tool shape") rfl rfl rfl

/-- **C10** (confirmed).  Frame property of the seat-update tool, for
every starting context: `passenger_name` is never written; when
`flight_number` was already set it is left exactly as it was; a fresh
flight number is generated only when `flight_number` was `None`; and
`confirmation_number` and `seat_number` are the only other fields
written (they receive the two arguments). -/
theorem c10_update_seat_frame (r : Nat) (c : AirlineAgentContext)
    (conf seat : String) :
    ((update_seat r c conf seat).1.passenger_name = c.passenger_name) ∧
    (c.flight_number ≠ none → (update_seat r c conf seat).1.flight_number = c.flight_number) ∧
    (c.flight_number = none →
      (update_seat r c conf seat).1.flight_number = some ("FLT-" ++ toString r)) ∧
    ((update_seat r c conf seat).1.confirmation_number = some conf) ∧
    ((update_seat r c conf seat).1.seat_number = some seat) := by
  by_cases h : c.flight_number = none <;>
    simp [update_seat, h]

/-- Witness for C10 at a context whose flight number is already set. -/
theorem c10_witness :
    ((update_seat 123 ⟨some "Ann", none, none, some "FLT-777"⟩ "XYZ9" "3C").1.passenger_name
      = some "Ann") ∧
    ((update_seat 123 ⟨some "Ann", none, none, some "FLT-777"⟩ "XYZ9" "3C").1.flight_number
      = some "FLT-777") :=
  ⟨(c10_update_seat_frame 123 ⟨some "Ann", none, none, some "FLT-777"⟩ "XYZ9" "3C").1,
   (c10_update_seat_frame 123 ⟨some "Ann", none, none, some "FLT-777"⟩ "XYZ9" "3C").2.1
     (fun h => Option.noConfusion h)⟩
